import Mathlib

/-!
# Verification of the BLE session manager core (`src/handler.rs`)

Shallow embedding of `BleHandler` from `src/src/handler.rs` of the
`tauri-plugin-blec` repository.  Addresses and UUIDs are modelled as `Nat`.
The adapter/transport environment (which peripherals exist, their GATT
tables, whether transport operations succeed) is an explicit `Env`
parameter, and the set of transport-level connected links is threaded
through every operation as a `List BleAddress`.  Each operation also
returns the trace of externally visible actions it performed, so that
ordering claims (pump abort before hook, scan start/stop symmetry) can be
stated.

`BleDevice` and `BleAddress` are not defined under `src/` (only used
there); they are modelled from the spec: a `BleDevice` is a projection of
a peripheral carrying its address and name, ordered ascending by address.
-/

namespace Blec

/-- UUIDs are opaque identifiers; modelled as `Nat`. -/
abbrev Uuid := Nat

/-- Modelled from the spec: `BleAddress` is an opaque, hashable, orderable
identifier of a peripheral, equality = identity.  Modelled as `Nat`. -/
abbrev BleAddress := Nat

/-- A GATT characteristic as retained by the handler; the code only ever
consults its `uuid` field (`btleplug::api::Characteristic`). -/
structure Characteristic where
  uuid : Uuid
deriving DecidableEq, Repr

/-- A GATT service: its UUID and its characteristics
(`btleplug` `Service { uuid, characteristics }`). -/
structure Service where
  uuid : Uuid
  characteristics : List Characteristic
deriving DecidableEq, Repr

/-- Modelled from the spec: `BleDevice` is a projection of a peripheral
carrying at least address and human-readable name, orderable ascending by
address (the spec requires scan batches "sorted ascending by address"). -/
structure BleDevice where
  address : BleAddress
  name : String
deriving DecidableEq, Repr

/-- Errors produced by the handler (`src/error.rs` is not under `src/`;
the variants are exactly those the handler code constructs, named as in
the spec's §7 error list). -/
inductive Error where
  | NoAdapters
  | UnknownPeripheral (addr : BleAddress)
  | AlreadyConnected
  | ServiceNotFound
  | CharacNotAvailable (uuid : Uuid)
  | NoDeviceConnected
  | SendingDevices
  | Adapter
deriving DecidableEq, Repr

/-- Externally visible actions an operation performs, in program order. -/
inductive Event where
  | startScan
  | clearRegistry
  | sleep
  | sentBatch (batch : List BleDevice)
  | stopScan
  | abortPump
  | clearListeners
  | transportConnect (addr : BleAddress)
  | transportDisconnect (addr : BleAddress)
  | invokeHook
  | clearCharacs
  | gattWrite (uuid : Uuid) (data : List Nat)
  | gattRead (uuid : Uuid)
  | gattSubscribe (uuid : Uuid)
deriving DecidableEq, Repr

/-- Outcome of one scan poll, as provided by the adapter: either the
enumeration of currently visible peripherals fails, or it returns a list
of peripheral addresses together with whether a sink send would succeed
at this poll (`tx.send` fails when the receiver was dropped). -/
inductive PollOutcome where
  | enumOk (addrs : List BleAddress) (sendOk : Bool)
  | enumErr
deriving DecidableEq, Repr

/-- The adapter/transport environment: per-address GATT table, whether a
transport connect to an address succeeds, whether `BleDevice::from_peripheral`
succeeds for an address and the name it yields, whether a GATT subscribe
succeeds, and the value a GATT read returns. -/
structure Env where
  gatt : BleAddress → List Service
  linkOk : BleAddress → Bool
  disconnectOk : BleAddress → Bool
  projectable : BleAddress → Bool
  devName : BleAddress → String
  subOk : Uuid → Bool
  readValue : Uuid → List Nat

/-- The handler state (`struct BleHandler`): the connected peripheral is
identified by its address; `devices` is the key set of the
`HashMap<BleAddress, Peripheral>` registry; `listenHandle` records whether
a notification-pump task handle is stored; `notifyListeners` holds the
UUIDs of registered listeners; `onDisconnect` records whether an
on-disconnect hook is installed. -/
structure BleHandler where
  connected : Option BleAddress
  characs : List Characteristic
  devices : List BleAddress
  listenHandle : Bool
  notifyListeners : List Uuid
  onDisconnect : Bool
deriving DecidableEq, Repr

/-- `BleHandler::new`: empty registry, no characteristics, not connected,
no pump handle, no listeners, no hook. -/
def BleHandler.new : BleHandler :=
  { connected := none
    characs := []
    devices := []
    listenHandle := false
    notifyListeners := []
    onDisconnect := false }

/-- `HashMap::insert` on the registry, restricted to its key set: inserting
an already present key replaces the value and leaves the key set unchanged. -/
def registryInsert (reg : List BleAddress) (a : BleAddress) : List BleAddress :=
  if a ∈ reg then reg else reg ++ [a]

/-- `BleHandler::disconnect` (teardown).  Aborts the pump task if present,
clears the listener list, and then, if a peripheral is stored and still
reports transport-connected, issues a transport disconnect — which the
adapter may refuse (`dev.disconnect().await?`, modelled by
`env.disconnectOk`): on that failure the teardown returns the error early,
with the connected slot still set, no hook invocation, and the
characteristic list and registry uncleared.  Otherwise the slot is
cleared, the on-disconnect hook is invoked if one is installed, and the
characteristic list and the registry are cleared.  Returns the new handler
state, the new link set, the action trace and the result. -/
def BleHandler.disconnect (env : Env) (st : BleHandler) (links : List BleAddress) :
    BleHandler × List BleAddress × List Event × Except Error Unit :=
  let tr1 : List Event := if st.listenHandle then [Event.abortPump] else []
  let st1 : BleHandler := { st with listenHandle := false, notifyListeners := [] }
  let step2 : BleHandler × List BleAddress × List Event × Except Error Unit :=
    match st1.connected with
    | some a =>
        if a ∈ links then
          if env.disconnectOk a then
            ({ st1 with connected := none }, links.erase a,
              [Event.transportDisconnect a], .ok ())
          else
            (st1, links, [], .error .Adapter)
        else
          ({ st1 with connected := none }, links, [], .ok ())
    | none => (st1, links, [], .ok ())
  match step2.2.2.2 with
  | .error e =>
      (step2.1, step2.2.1, tr1 ++ [Event.clearListeners] ++ step2.2.2.1, .error e)
  | .ok _ =>
      let st2 := step2.1
      let tr4 : List Event := if st2.onDisconnect then [Event.invokeHook] else []
      ({ st2 with characs := [], devices := [] }, step2.2.1,
        tr1 ++ [Event.clearListeners] ++ step2.2.2.1 ++ tr4
          ++ [Event.clearCharacs, Event.clearRegistry], .ok ())

/-- `BleHandler::get_device`: return the connected peripheral, or
`NoDeviceConnected` if none is stored; if one is stored but no longer
transport-connected, run the full teardown (`self.disconnect().await?`
propagates a teardown error, though on this path the stored peripheral is
not transport-connected, so the teardown's transport disconnect is never
attempted and it always succeeds) and then fail `NoDeviceConnected`. -/
def BleHandler.get_device (env : Env) (st : BleHandler) (links : List BleAddress) :
    BleHandler × List BleAddress × List Event × Except Error BleAddress :=
  match st.connected with
  | none => (st, links, [], .error .NoDeviceConnected)
  | some a =>
      if a ∈ links then
        (st, links, [], .ok a)
      else
        let d := BleHandler.disconnect env st links
        match d.2.2.2 with
        | .error e => (d.1, d.2.1, d.2.2.1, .error e)
        | .ok _ => (d.1, d.2.1, d.2.2.1, .error .NoDeviceConnected)

/-- `BleHandler::get_charac`: find the characteristic with the given UUID
in the retained list, else `CharacNotAvailable`. -/
def BleHandler.get_charac (st : BleHandler) (uuid : Uuid) : Except Error Characteristic :=
  match st.characs.find? (fun c => c.uuid = uuid) with
  | some c => .ok c
  | none => .error (.CharacNotAvailable uuid)

/-- Insert a device into a list sorted ascending by address
(`Vec::sort` on `BleDevice`, whose order is modelled from the spec as
ascending by address). -/
def insertDev (d : BleDevice) : List BleDevice → List BleDevice
  | [] => [d]
  | e :: rest =>
      if d.address ≤ e.address then d :: e :: rest else e :: insertDev d rest

/-- `devices.sort()`: sort the batch ascending by address. -/
def sortDevices : List BleDevice → List BleDevice
  | [] => []
  | d :: rest => insertDev d (sortDevices rest)

/-- Loop body of `BleHandler::add_devices`: for each discovered peripheral
whose projection to `BleDevice` succeeds, insert it into the registry and
push the projection onto the batch; projection failures are skipped. -/
def addDevicesGo (env : Env) :
    List BleAddress → List BleDevice → List BleAddress → List BleAddress × List BleDevice
  | reg, devs, [] => (reg, devs)
  | reg, devs, p :: rest =>
      if env.projectable p then
        addDevicesGo env (registryInsert reg p) (devs ++ [⟨p, env.devName p⟩]) rest
      else
        addDevicesGo env reg devs rest

/-- `BleHandler::add_devices`: upsert every projectable discovered
peripheral into the registry, collect the projections, and sort the batch. -/
def BleHandler.add_devices (env : Env) (st : BleHandler) (discovered : List BleAddress) :
    BleHandler × List BleDevice :=
  let r := addDevicesGo env st.devices [] discovered
  ({ st with devices := r.1 }, sortDevices r.2)

/-- Number of polls: `(timeout as f64 / 200.0).round() as u64`, i.e.
round(timeout / 200) with halves rounded up (away from zero), in exact
arithmetic: `(timeout + 100) / 200`. -/
def discoverLoops (timeout : Nat) : Nat := (timeout + 100) / 200

/-- The polling loop of `BleHandler::discover`: `n` remaining polls, `i`
the index of the next poll (indexing the adapter's poll outcomes), `devices`
the batch of the previous poll (returned at the end).  Each poll sleeps
200 ms, enumerates peripherals (an enumeration failure aborts the whole
call with an adapter error, before `stop_scan`), adds them to the registry,
and, if a sink is present and the batch non-empty, sends the batch (a send
failure aborts with `SendingDevices`, before `stop_scan`).  After the last
poll the scan is stopped and the last batch returned. -/
def discoverLoop (env : Env) (polls : Nat → PollOutcome) (txPresent : Bool) :
    Nat → Nat → BleHandler → List BleDevice →
    BleHandler × List Event × Except Error (List BleDevice)
  | 0, _, st, devices => (st, [Event.stopScan], .ok devices)
  | n + 1, i, st, _ =>
      match polls i with
      | .enumErr => (st, [Event.sleep], .error .Adapter)
      | .enumOk addrs sendOk =>
          let r := st.add_devices env addrs
          let st1 := r.1
          let batch := r.2
          if batch ≠ [] ∧ txPresent then
            if sendOk then
              let rec1 := discoverLoop env polls txPresent n (i + 1) st1 batch
              (rec1.1, Event.sleep :: Event.sentBatch batch :: rec1.2.1, rec1.2.2)
            else
              (st1, [Event.sleep], .error .SendingDevices)
          else
            let rec1 := discoverLoop env polls txPresent n (i + 1) st1 batch
            (rec1.1, Event.sleep :: rec1.2.1, rec1.2.2)

/-- `BleHandler::discover`: start the scan, clear the registry, run
`round(timeout/200)` polls of 200 ms each, stop the scan, and return the
last poll's batch.  `txPresent` records whether a sink channel was passed;
`polls` is the adapter's behaviour at each poll. -/
def BleHandler.discover (env : Env) (st : BleHandler) (txPresent : Bool)
    (timeout : Nat) (polls : Nat → PollOutcome) :
    BleHandler × List Event × Except Error (List BleDevice) :=
  let st1 := { st with devices := [] }
  let r := discoverLoop env polls txPresent (discoverLoops timeout) 0 st1 []
  (r.1, Event.startScan :: Event.clearRegistry :: r.2.1, r.2.2)

/-- `BleHandler::connect_device`: fail `AlreadyConnected` if the stored
peripheral has the requested address; look the address up in the registry
(`UnknownPeripheral` if absent); open the transport link if it is not
already open (the adapter may refuse, modelled by `env.linkOk`); store the
peripheral in the connected slot. -/
def BleHandler.connect_device (env : Env) (st : BleHandler) (links : List BleAddress)
    (address : BleAddress) :
    BleHandler × List BleAddress × List Event × Except Error Unit :=
  if (match st.connected with | some d => address == d | none => false) then
    (st, links, [], .error .AlreadyConnected)
  else if address ∈ st.devices then
    if address ∈ links then
      ({ st with connected := some address }, links, [], .ok ())
    else if env.linkOk address then
      ({ st with connected := some address }, address :: links,
        [Event.transportConnect address], .ok ())
    else
      (st, links, [], .error .Adapter)
  else
    (st, links, [], .error (.UnknownPeripheral address))

/-- `BleHandler::connect_service`: fetch the connected device (via
`get_device`), run GATT service discovery, locate the service with the
requested UUID (`ServiceNotFound` if absent), and append every
characteristic of that service whose UUID was requested to the retained
list (missing requested UUIDs are silently omitted). -/
def BleHandler.connect_service (env : Env) (st : BleHandler) (links : List BleAddress)
    (service : Uuid) (characs : List Uuid) :
    BleHandler × List BleAddress × List Event × Except Error Unit :=
  let g := BleHandler.get_device env st links
  match g.2.2.2 with
  | .error e => (g.1, g.2.1, g.2.2.1, .error e)
  | .ok device =>
      match (env.gatt device).find? (fun s => s.uuid = service) with
      | none => (g.1, g.2.1, g.2.2.1, .error .ServiceNotFound)
      | some s =>
          ({ g.1 with
              characs := g.1.characs ++ s.characteristics.filter (fun c => c.uuid ∈ characs) },
            g.2.1, g.2.2.1, .ok ())

/-- `BleHandler::connect`: if the registry is empty, first run a 1000 ms
bootstrap discovery with no sink; then connect to the address, resolve the
service and characteristics, install the on-disconnect hook if one was
passed, and spawn the notification pump (which re-fetches the device via
`get_device`).  Errors at any step propagate without cleanup. -/
def BleHandler.connect (env : Env) (st : BleHandler) (links : List BleAddress)
    (address : BleAddress) (service : Uuid) (characs : List Uuid)
    (hasHook : Bool) (polls : Nat → PollOutcome) :
    BleHandler × List BleAddress × List Event × Except Error Unit :=
  let boot : BleHandler × List Event × Except Error Unit :=
    if st.devices.length = 0 then
      let d := st.discover env false 1000 polls
      (d.1, d.2.1, d.2.2.map (fun _ => ()))
    else
      (st, [], .ok ())
  match boot.2.2 with
  | .error e => (boot.1, links, boot.2.1, .error e)
  | .ok _ =>
      let st0 := boot.1
      let tr0 := boot.2.1
      let cd := st0.connect_device env links address
      match cd.2.2.2 with
      | .error e => (cd.1, cd.2.1, tr0 ++ cd.2.2.1, .error e)
      | .ok _ =>
          let cs := BleHandler.connect_service env cd.1 cd.2.1 service characs
          match cs.2.2.2 with
          | .error e => (cs.1, cs.2.1, tr0 ++ cd.2.2.1 ++ cs.2.2.1, .error e)
          | .ok _ =>
              let st1 := if hasHook then { cs.1 with onDisconnect := true } else cs.1
              let g := BleHandler.get_device env st1 cs.2.1
              match g.2.2.2 with
              | .error e => (g.1, g.2.1, tr0 ++ cd.2.2.1 ++ cs.2.2.1 ++ g.2.2.1, .error e)
              | .ok _ =>
                  ({ g.1 with listenHandle := true }, g.2.1,
                    tr0 ++ cd.2.2.1 ++ cs.2.2.1 ++ g.2.2.1, .ok ())

/-- `BleHandler::send_data`: fetch the connected device, resolve the
characteristic, and write without response. -/
def BleHandler.send_data (env : Env) (st : BleHandler) (links : List BleAddress)
    (c : Uuid) (data : List Nat) :
    BleHandler × List BleAddress × List Event × Except Error Unit :=
  let g := BleHandler.get_device env st links
  match g.2.2.2 with
  | .error e => (g.1, g.2.1, g.2.2.1, .error e)
  | .ok _ =>
      match g.1.get_charac c with
      | .error e => (g.1, g.2.1, g.2.2.1, .error e)
      | .ok charac =>
          (g.1, g.2.1, g.2.2.1 ++ [Event.gattWrite charac.uuid data], .ok ())

/-- `BleHandler::recv_data`: fetch the connected device, resolve the
characteristic, and read its value. -/
def BleHandler.recv_data (env : Env) (st : BleHandler) (links : List BleAddress)
    (c : Uuid) :
    BleHandler × List BleAddress × List Event × Except Error (List Nat) :=
  let g := BleHandler.get_device env st links
  match g.2.2.2 with
  | .error e => (g.1, g.2.1, g.2.2.1, .error e)
  | .ok _ =>
      match g.1.get_charac c with
      | .error e => (g.1, g.2.1, g.2.2.1, .error e)
      | .ok charac =>
          (g.1, g.2.1, g.2.2.1 ++ [Event.gattRead charac.uuid],
            .ok (env.readValue charac.uuid))

/-- `BleHandler::subscribe`: fetch the connected device, resolve the
characteristic, enable notifications at the GATT layer (which the adapter
may refuse, modelled by `env.subOk`), and append a listener with the
characteristic's UUID to the shared listener list. -/
def BleHandler.subscribe (env : Env) (st : BleHandler) (links : List BleAddress)
    (c : Uuid) :
    BleHandler × List BleAddress × List Event × Except Error Unit :=
  let g := BleHandler.get_device env st links
  match g.2.2.2 with
  | .error e => (g.1, g.2.1, g.2.2.1, .error e)
  | .ok _ =>
      match g.1.get_charac c with
      | .error e => (g.1, g.2.1, g.2.2.1, .error e)
      | .ok charac =>
          if env.subOk charac.uuid then
            ({ g.1 with notifyListeners := g.1.notifyListeners ++ [charac.uuid] },
              g.2.1, g.2.2.1 ++ [Event.gattSubscribe charac.uuid], .ok ())
          else
            (g.1, g.2.1, g.2.2.1 ++ [Event.gattSubscribe charac.uuid], .error .Adapter)

/-- Adapter-level events consumed by `BleHandler::handle_event`. -/
inductive CentralEvent where
  | deviceDisconnected (addr : BleAddress)
  | other
deriving DecidableEq, Repr

/-- `BleHandler::handle_event`: a `DeviceDisconnected` event triggers the
full teardown (propagating its result); every other event is ignored. -/
def BleHandler.handle_event (env : Env) (st : BleHandler) (links : List BleAddress)
    (ev : CentralEvent) :
    BleHandler × List BleAddress × List Event × Except Error Unit :=
  match ev with
  | .deviceDisconnected _ => BleHandler.disconnect env st links
  | .other => (st, links, [], .ok ())

/-! ## Helper lemmas about teardown and the device accessor -/

/-- Teardown from a state with no stored peripheral: always completes,
clears everything, leaves the link set untouched and the hook installed. -/
theorem disconnect_idle (env : Env) (st : BleHandler) (links : List BleAddress)
    (h : st.connected = none) :
    BleHandler.disconnect env st links =
      ({ st with listenHandle := false, notifyListeners := [],
                 characs := [], devices := [] },
        links,
        (if st.listenHandle then [Event.abortPump] else []) ++ [Event.clearListeners]
          ++ (if st.onDisconnect then [Event.invokeHook] else [])
          ++ [Event.clearCharacs, Event.clearRegistry],
        .ok ()) := by
  obtain ⟨c, ch, d, lh, nl, od⟩ := st
  simp only at h
  subst h
  unfold BleHandler.disconnect
  cases lh <;> cases od <;> simp

/-- Teardown when the stored peripheral is no longer transport-connected:
the transport disconnect is skipped, so the teardown always completes. -/
theorem disconnect_not_linked (env : Env) (st : BleHandler) (links : List BleAddress)
    (a : BleAddress) (h : st.connected = some a) (hm : a ∉ links) :
    BleHandler.disconnect env st links =
      ({ st with connected := none, listenHandle := false, notifyListeners := [],
                 characs := [], devices := [] },
        links,
        (if st.listenHandle then [Event.abortPump] else []) ++ [Event.clearListeners]
          ++ (if st.onDisconnect then [Event.invokeHook] else [])
          ++ [Event.clearCharacs, Event.clearRegistry],
        .ok ()) := by
  obtain ⟨c, ch, d, lh, nl, od⟩ := st
  simp only at h
  subst h
  unfold BleHandler.disconnect
  cases lh <;> cases od <;> simp [hm]

/-- Teardown when the stored peripheral is transport-connected and the
adapter accepts the transport disconnect: completes fully. -/
theorem disconnect_linked_ok (env : Env) (st : BleHandler) (links : List BleAddress)
    (a : BleAddress) (h : st.connected = some a) (hm : a ∈ links)
    (hd : env.disconnectOk a = true) :
    BleHandler.disconnect env st links =
      ({ st with connected := none, listenHandle := false, notifyListeners := [],
                 characs := [], devices := [] },
        links.erase a,
        (if st.listenHandle then [Event.abortPump] else []) ++ [Event.clearListeners]
          ++ [Event.transportDisconnect a]
          ++ (if st.onDisconnect then [Event.invokeHook] else [])
          ++ [Event.clearCharacs, Event.clearRegistry],
        .ok ()) := by
  obtain ⟨c, ch, d, lh, nl, od⟩ := st
  simp only at h
  subst h
  unfold BleHandler.disconnect
  cases lh <;> cases od <;> simp [hm, hd]

/-- Teardown when the adapter refuses the transport disconnect
(`dev.disconnect().await?` fails): early return — the pump was aborted and
the listeners cleared, but the connected slot stays set, no hook runs, and
the characteristic list and registry stay as they were. -/
theorem disconnect_linked_err (env : Env) (st : BleHandler) (links : List BleAddress)
    (a : BleAddress) (h : st.connected = some a) (hm : a ∈ links)
    (hd : env.disconnectOk a = false) :
    BleHandler.disconnect env st links =
      ({ st with listenHandle := false, notifyListeners := [] },
        links,
        (if st.listenHandle then [Event.abortPump] else []) ++ [Event.clearListeners],
        .error .Adapter) := by
  obtain ⟨c, ch, d, lh, nl, od⟩ := st
  simp only at h
  subst h
  unfold BleHandler.disconnect
  cases lh <;> cases od <;> simp [hm, hd]

/-- `get_device` when nothing is stored. -/
theorem get_device_idle (env : Env) (st : BleHandler) (links : List BleAddress)
    (h : st.connected = none) :
    BleHandler.get_device env st links = (st, links, [], .error .NoDeviceConnected) := by
  unfold BleHandler.get_device
  simp [h]

/-- `get_device` when the stored peripheral is still transport-connected. -/
theorem get_device_ok (env : Env) (st : BleHandler) (links : List BleAddress)
    (a : BleAddress) (h : st.connected = some a) (hm : a ∈ links) :
    BleHandler.get_device env st links = (st, links, [], .ok a) := by
  unfold BleHandler.get_device
  simp [h, hm]

/-- `get_device` when the stored peripheral has dropped its link: the full
teardown (which on this path never attempts the transport disconnect and
so always completes), then `NoDeviceConnected`. -/
theorem get_device_drop (env : Env) (st : BleHandler) (links : List BleAddress)
    (a : BleAddress) (h : st.connected = some a) (hm : a ∉ links) :
    BleHandler.get_device env st links =
      ((BleHandler.disconnect env st links).1, (BleHandler.disconnect env st links).2.1,
        (BleHandler.disconnect env st links).2.2.1, .error .NoDeviceConnected) := by
  unfold BleHandler.get_device
  rw [disconnect_not_linked env st links a h hm]
  simp [h, hm]

/-! ## Concrete fixtures used by counterexamples and witnesses -/

/-- An environment in which every peripheral is reachable, projectable, and
offers service 55 with characteristics 9 and 10. -/
def envA : Env :=
  { gatt := fun _ => [⟨55, [⟨9⟩, ⟨10⟩]⟩]
    linkOk := fun _ => true
    disconnectOk := fun _ => true
    projectable := fun _ => true
    devName := fun _ => ""
    subOk := fun _ => true
    readValue := fun _ => [1, 2] }

/-- The same environment except that the adapter refuses every transport
disconnect. -/
def envFailDisc : Env := { envA with disconnectOk := fun _ => false }

/-- Adapter polls that always see peripherals 1 and 2 and whose sink sends
succeed. -/
def pollsA : Nat → PollOutcome := fun _ => .enumOk [1, 2] true

/-- Adapter polls that see no peripherals at all. -/
def pollsNone : Nat → PollOutcome := fun _ => .enumOk [] true

/-- Adapter polls that always see peripheral 3 only. -/
def pollsThree : Nat → PollOutcome := fun _ => .enumOk [3] true

/-- A fresh handler connecting to peripheral 1 (service 55, characteristic 9)
with an on-disconnect hook installed. -/
def runConnectHook : BleHandler × List BleAddress × List Event × Except Error Unit :=
  BleHandler.connect envA BleHandler.new [] 1 55 [9] true pollsA

/-- First explicit teardown after `runConnectHook`. -/
def runTeardown1 : BleHandler × List BleAddress × List Event × Except Error Unit :=
  BleHandler.disconnect envA runConnectHook.1 runConnectHook.2.1

/-- A discovery performed while the session is Idle, finding peripheral 3:
it leaves an Idle session with a non-empty registry and a still-installed
hook. -/
def runDiscoverIdle : BleHandler × List Event × Except Error (List BleDevice) :=
  BleHandler.discover envA runTeardown1.1 false 1000 pollsThree

/-- Second explicit teardown, issued from the Idle state. -/
def runTeardown2 : BleHandler × List BleAddress × List Event × Except Error Unit :=
  BleHandler.disconnect envA runDiscoverIdle.1 runTeardown1.2.1

/-! ## C7 -/

/-- C7 counterexample: after connect (with hook), disconnect, and a scan
that found peripheral 3, the session is Idle with registry `[3]`; calling
`disconnect()` from this Idle state empties the Device Registry and invokes
the installed on-disconnect hook — so it is not a no-op, refuting the claim
that the Registry and the hook invocation count are unaffected. -/
theorem c7_cex :
    runDiscoverIdle.1.connected = none
    ∧ runDiscoverIdle.1.devices = [3]
    ∧ runDiscoverIdle.1.onDisconnect = true
    ∧ runTeardown2.1.devices = []
    ∧ Event.invokeHook ∈ runTeardown2.2.2.1 := by
  decide

/-- C7 (amended): `disconnect()` from Idle returns success, leaves the link
set untouched, empties the listener and characteristic lists (a no-op in
reachable Idle states, where they are already empty), and never issues a
transport disconnect — but it clears the Device Registry, and it invokes
the on-disconnect hook exactly once whenever one is still installed. -/
theorem c7_thm (env : Env) (st : BleHandler) (links : List BleAddress)
    (h : st.connected = none) :
    (BleHandler.disconnect env st links).1 =
      { st with listenHandle := false, notifyListeners := [],
                characs := [], devices := [] }
    ∧ (BleHandler.disconnect env st links).2.1 = links
    ∧ (BleHandler.disconnect env st links).2.2.2 = .ok ()
    ∧ (st.onDisconnect = false →
        Event.invokeHook ∉ (BleHandler.disconnect env st links).2.2.1)
    ∧ (st.onDisconnect = true →
        (BleHandler.disconnect env st links).2.2.1.count Event.invokeHook = 1)
    ∧ (∀ a, Event.transportDisconnect a ∉ (BleHandler.disconnect env st links).2.2.1) := by
  rw [disconnect_idle env st links h]
  refine ⟨rfl, rfl, rfl, ?_, ?_, ?_⟩
  · intro ho
    cases hl : st.listenHandle <;> simp [ho]
  · intro ho
    rw [ho]
    cases hl : st.listenHandle
    · dsimp only
      decide
    · dsimp only
      decide
  · intro a
    cases hl : st.listenHandle <;> cases ho : st.onDisconnect <;> simp

/-- C7 witness: the amended theorem applied to the concrete Idle state
reached in the counterexample run. -/
theorem c7_witness :
    (BleHandler.disconnect envA runDiscoverIdle.1 runTeardown1.2.1).1 =
      { runDiscoverIdle.1 with listenHandle := false, notifyListeners := [],
                               characs := [], devices := [] }
    ∧ (BleHandler.disconnect envA runDiscoverIdle.1 runTeardown1.2.1).2.1 = runTeardown1.2.1
    ∧ (BleHandler.disconnect envA runDiscoverIdle.1 runTeardown1.2.1).2.2.2 = .ok ()
    ∧ (runDiscoverIdle.1.onDisconnect = true →
        (BleHandler.disconnect envA runDiscoverIdle.1 runTeardown1.2.1).2.2.1.count
            Event.invokeHook = 1) := by
  have h := c7_thm envA runDiscoverIdle.1 runTeardown1.2.1 (by decide)
  exact ⟨h.1, h.2.1, h.2.2.1, h.2.2.2.2.1⟩

/-! ## C3 -/

/-- C3 counterexample: after connect (hook installed) and a first teardown,
the session is Idle; a second `disconnect()` performs no Connected-to-Idle
transition (the connected slot is `none` before and after) yet the
on-disconnect hook is invoked again — refuting "invoked exactly once per
Connected-to-Idle transition and never when no such transition occurs". -/
theorem c3_cex :
    runTeardown1.1.connected = none
    ∧ Event.invokeHook ∈ runTeardown1.2.2.1
    ∧ (BleHandler.disconnect envA runTeardown1.1 runTeardown1.2.1).1.connected = none
    ∧ Event.invokeHook ∈ (BleHandler.disconnect envA runTeardown1.1 runTeardown1.2.1).2.2.1 := by
  decide

/-- C3 (amended): the on-disconnect hook, once installed, is invoked exactly
once per **completing teardown invocation** (explicit `disconnect()` or a
`DeviceDisconnected` event, which runs the same teardown), even when the
session is already Idle and no Connected-to-Idle transition occurs, because
the hook is never uninstalled; a teardown aborted by a transport-disconnect
failure (`dev.disconnect().await?`) invokes no hook and leaves the
connected slot, characteristic list and registry untouched; within a
completing teardown the hook runs strictly after the pump task is aborted
and strictly after the listener list is cleared. -/
theorem c3_thm (env : Env) (st : BleHandler) (links : List BleAddress) :
    (st.onDisconnect = false →
        Event.invokeHook ∉ (BleHandler.disconnect env st links).2.2.1)
    ∧ (∀ e, (BleHandler.disconnect env st links).2.2.2 = .error e →
        Event.invokeHook ∉ (BleHandler.disconnect env st links).2.2.1
        ∧ (BleHandler.disconnect env st links).1.connected = st.connected
        ∧ (BleHandler.disconnect env st links).1.characs = st.characs
        ∧ (BleHandler.disconnect env st links).1.devices = st.devices)
    ∧ (st.onDisconnect = true →
        (BleHandler.disconnect env st links).2.2.2 = .ok () →
        ∃ tr1 tr2,
          (BleHandler.disconnect env st links).2.2.1 = tr1 ++ Event.invokeHook :: tr2
          ∧ Event.invokeHook ∉ tr1
          ∧ Event.invokeHook ∉ tr2
          ∧ Event.clearListeners ∈ tr1
          ∧ (st.listenHandle = true → Event.abortPump ∈ tr1))
    ∧ (∀ a, BleHandler.handle_event env st links (.deviceDisconnected a)
        = BleHandler.disconnect env st links) := by
  rcases hc : st.connected with _ | a
  · rw [disconnect_idle env st links hc]
    refine ⟨?_, ?_, ?_, fun a => disconnect_idle env st links hc⟩
    · intro ho
      cases hl : st.listenHandle <;> simp [ho]
    · intro e he
      simp at he
    · intro ho _
      refine ⟨(if st.listenHandle then [Event.abortPump] else []) ++ [Event.clearListeners],
        [Event.clearCharacs, Event.clearRegistry], ?_, ?_, ?_, ?_, ?_⟩
      · simp [ho]
      · cases hl : st.listenHandle <;> simp
      · simp
      · simp
      · intro hl
        simp [hl]
  · by_cases hm : a ∈ links
    · cases hd : env.disconnectOk a
      · rw [disconnect_linked_err env st links a hc hm hd]
        refine ⟨?_, ?_, ?_, fun x => disconnect_linked_err env st links a hc hm hd⟩
        · intro ho
          cases hl : st.listenHandle <;> simp
        · intro e he
          refine ⟨?_, hc, rfl, rfl⟩
          cases hl : st.listenHandle <;> simp
        · intro ho hok
          simp at hok
      · rw [disconnect_linked_ok env st links a hc hm hd]
        refine ⟨?_, ?_, ?_, fun x => disconnect_linked_ok env st links a hc hm hd⟩
        · intro ho
          cases hl : st.listenHandle <;> simp [ho]
        · intro e he
          simp at he
        · intro ho _
          refine ⟨(if st.listenHandle then [Event.abortPump] else [])
              ++ [Event.clearListeners] ++ [Event.transportDisconnect a],
            [Event.clearCharacs, Event.clearRegistry], ?_, ?_, ?_, ?_, ?_⟩
          · simp [ho]
          · cases hl : st.listenHandle <;> simp
          · simp
          · simp
          · intro hl
            simp [hl]
    · rw [disconnect_not_linked env st links a hc hm]
      refine ⟨?_, ?_, ?_, fun x => disconnect_not_linked env st links a hc hm⟩
      · intro ho
        cases hl : st.listenHandle <;> simp [ho]
      · intro e he
        simp at he
      · intro ho _
        refine ⟨(if st.listenHandle then [Event.abortPump] else []) ++ [Event.clearListeners],
          [Event.clearCharacs, Event.clearRegistry], ?_, ?_, ?_, ?_, ?_⟩
        · simp [ho]
        · cases hl : st.listenHandle <;> simp
        · simp
        · simp
        · intro hl
          simp [hl]

/-- C3 witness: the amended theorem applied to the concrete post-connect
state of the counterexample run (hook installed, pump handle present):
the completed teardown invokes the hook, a `DeviceDisconnected` event runs
the same teardown, and with an adapter that refuses the transport
disconnect the aborted teardown invokes no hook and keeps the slot. -/
theorem c3_witness :
    Event.invokeHook ∈ runTeardown1.2.2.1
    ∧ (∀ a, BleHandler.handle_event envA runConnectHook.1 runConnectHook.2.1
        (.deviceDisconnected a)
          = BleHandler.disconnect envA runConnectHook.1 runConnectHook.2.1)
    ∧ Event.invokeHook ∉
        (BleHandler.disconnect envFailDisc runConnectHook.1 runConnectHook.2.1).2.2.1
    ∧ (BleHandler.disconnect envFailDisc runConnectHook.1 runConnectHook.2.1).1.connected
        = runConnectHook.1.connected := by
  have h1 := c3_thm envA runConnectHook.1 runConnectHook.2.1
  have h2 := c3_thm envFailDisc runConnectHook.1 runConnectHook.2.1
  obtain ⟨tr1, tr2, heq, -, -, -, -⟩ := h1.2.2.1 (by decide) rfl
  obtain ⟨hnot, hconn, -, -⟩ := h2.2.1 .Adapter rfl
  refine ⟨?_, h1.2.2.2, hnot, hconn⟩
  rw [show runTeardown1.2.2.1 = tr1 ++ Event.invokeHook :: tr2 from heq]
  simp

/-! ## C6 -/

/-- C6: every I/O operation (`send_data`, `recv_data`, `subscribe`) first
consults `get_device`: if a peripheral is stored but no longer
transport-connected, the operation performs exactly the full teardown and
returns `NoDeviceConnected`, leaving the session Idle; if no peripheral is
stored it returns `NoDeviceConnected` and changes nothing; and when the
stored peripheral is still transport-connected no I/O operation changes the
connection status or the link set (or, for `send_data`/`recv_data`, any
handler state at all). -/
theorem c6_thm (env : Env) (st : BleHandler) (links : List BleAddress)
    (c : Uuid) (data : List Nat) :
    (st.connected = none →
        BleHandler.send_data env st links c data
            = (st, links, [], .error .NoDeviceConnected)
        ∧ BleHandler.recv_data env st links c = (st, links, [], .error .NoDeviceConnected)
        ∧ BleHandler.subscribe env st links c = (st, links, [], .error .NoDeviceConnected))
    ∧ (∀ a, st.connected = some a → a ∉ links →
        BleHandler.send_data env st links c data =
          ((BleHandler.disconnect env st links).1, (BleHandler.disconnect env st links).2.1,
            (BleHandler.disconnect env st links).2.2.1, .error .NoDeviceConnected)
        ∧ BleHandler.recv_data env st links c =
          ((BleHandler.disconnect env st links).1, (BleHandler.disconnect env st links).2.1,
            (BleHandler.disconnect env st links).2.2.1, .error .NoDeviceConnected)
        ∧ BleHandler.subscribe env st links c =
          ((BleHandler.disconnect env st links).1, (BleHandler.disconnect env st links).2.1,
            (BleHandler.disconnect env st links).2.2.1, .error .NoDeviceConnected)
        ∧ (BleHandler.send_data env st links c data).1.connected = none)
    ∧ (∀ a, st.connected = some a → a ∈ links →
        ((BleHandler.send_data env st links c data).1 = st
            ∧ (BleHandler.send_data env st links c data).2.1 = links)
        ∧ ((BleHandler.recv_data env st links c).1 = st
            ∧ (BleHandler.recv_data env st links c).2.1 = links)
        ∧ ((BleHandler.subscribe env st links c).1.connected = st.connected
            ∧ (BleHandler.subscribe env st links c).1.characs = st.characs
            ∧ (BleHandler.subscribe env st links c).1.devices = st.devices
            ∧ (BleHandler.subscribe env st links c).2.1 = links)) := by
  refine ⟨fun h => ?_, fun a h hm => ?_, fun a h hm => ?_⟩
  · simp [BleHandler.send_data, BleHandler.recv_data, BleHandler.subscribe,
      get_device_idle env st links h]
  · have hd := get_device_drop env st links a h hm
    refine ⟨?_, ?_, ?_, ?_⟩
    · simp [BleHandler.send_data, hd]
    · simp [BleHandler.recv_data, hd]
    · simp [BleHandler.subscribe, hd]
    · simp [BleHandler.send_data, hd, disconnect_not_linked env st links a h hm]
  · have hg := get_device_ok env st links a h hm
    refine ⟨?_, ?_, ?_⟩
    · unfold BleHandler.send_data
      rw [hg]
      cases hc : st.get_charac c <;> simp [hc]
    · unfold BleHandler.recv_data
      rw [hg]
      cases hc : st.get_charac c <;> simp [hc]
    · unfold BleHandler.subscribe
      rw [hg]
      cases hc : st.get_charac c
      · simp [hc, h]
      · simp only [hc]
        split <;> simp [h]

/-- The Connected state with a dropped transport link used to witness C6:
peripheral 1 is stored, characteristic 9 retained, one listener, hook
installed, but the link set is empty. -/
def stDropped : BleHandler :=
  { connected := some 1
    characs := [⟨9⟩]
    devices := [1, 2]
    listenHandle := true
    notifyListeners := [9]
    onDisconnect := true }

/-- C6 witness: on the concrete dropped-link state, all three I/O
operations run the teardown and surface `NoDeviceConnected`, leaving the
session Idle. -/
theorem c6_witness :
    BleHandler.send_data envA stDropped [] 9 [222] =
      ((BleHandler.disconnect envA stDropped []).1,
        (BleHandler.disconnect envA stDropped []).2.1,
        (BleHandler.disconnect envA stDropped []).2.2.1, .error .NoDeviceConnected)
    ∧ BleHandler.subscribe envA stDropped [] 9 =
      ((BleHandler.disconnect envA stDropped []).1,
        (BleHandler.disconnect envA stDropped []).2.1,
        (BleHandler.disconnect envA stDropped []).2.2.1, .error .NoDeviceConnected)
    ∧ (BleHandler.send_data envA stDropped [] 9 [222]).1.connected = none := by
  have h := (c6_thm envA stDropped [] 9 [222]).2.1 1 rfl (by decide)
  exact ⟨h.1, h.2.2.1, h.2.2.2⟩

/-! ## C9 -/

/-- C9: when the session's peripheral is stored and transport-connected and
the GATT subscribe succeeds, `subscribe(uuid, cb)` appends a listener with
exactly that UUID if and only if the UUID resolves against the retained
characteristic list; otherwise it fails `CharacNotAvailable` and leaves the
listener list (and everything else) unchanged — so every registered
listener's UUID is in the characteristic list at registration time. -/
theorem c9_thm (env : Env) (st : BleHandler) (links : List BleAddress)
    (u : Uuid) (a : BleAddress)
    (hc : st.connected = some a) (hm : a ∈ links) (hs : env.subOk u = true) :
    (u ∈ st.characs.map Characteristic.uuid →
      BleHandler.subscribe env st links u =
        ({ st with notifyListeners := st.notifyListeners ++ [u] }, links,
          [Event.gattSubscribe u], .ok ()))
    ∧ (u ∉ st.characs.map Characteristic.uuid →
      BleHandler.subscribe env st links u =
        (st, links, [], .error (.CharacNotAvailable u))) := by
  have hg := get_device_ok env st links a hc hm
  unfold BleHandler.subscribe
  rw [hg]
  unfold BleHandler.get_charac
  cases hf : st.characs.find? (fun c => c.uuid = u)
  · have hnone := List.find?_eq_none.mp hf
    constructor
    · intro hu
      obtain ⟨ch, hch, hcu⟩ := List.mem_map.mp hu
      exact absurd (by simpa using hnone ch hch) (by simp [hcu])
    · intro _
      simp [hf]
  · rename_i ch
    have hpu : ch.uuid = u := by simpa using List.find?_some hf
    have hmem := List.mem_of_find?_eq_some hf
    constructor
    · intro _
      simp [hf, hpu, hs]
    · intro hu
      exact absurd (List.mem_map.mpr ⟨_, hmem, hpu⟩) hu

/-- A healthy Connected state used to witness C9: characteristics 9 and 10
retained, peripheral 1 stored and linked. -/
def stHealthy : BleHandler :=
  { connected := some 1
    characs := [⟨9⟩, ⟨10⟩]
    devices := [1, 2]
    listenHandle := true
    notifyListeners := []
    onDisconnect := false }

/-- C9 witness: on the concrete healthy state, subscribing to the retained
UUID 9 appends the listener, and subscribing to the absent UUID 7 fails
`CharacNotAvailable` leaving state unchanged. -/
theorem c9_witness :
    BleHandler.subscribe envA stHealthy [1] 9 =
      ({ stHealthy with notifyListeners := [9] }, [1],
        [Event.gattSubscribe 9], .ok ())
    ∧ BleHandler.subscribe envA stHealthy [1] 7 =
      (stHealthy, [1], [], .error (.CharacNotAvailable 7)) := by
  refine ⟨?_, ?_⟩
  · have h := (c9_thm envA stHealthy [1] 9 1 rfl (by decide) (by decide)).1 (by decide)
    simpa [stHealthy] using h
  · exact (c9_thm envA stHealthy [1] 7 1 rfl (by decide) (by decide)).2 (by decide)

/-! ## C8 -/

/-- Adapter polls that always see peripheral 7 only. -/
def pollsSeven : Nat → PollOutcome := fun _ => .enumOk [7] true

/-- A fresh handler connecting to peripheral 1 without a hook. -/
def runConnect1 : BleHandler × List BleAddress × List Event × Except Error Unit :=
  BleHandler.connect envA BleHandler.new [] 1 55 [9] false pollsA

/-- A scan that finds nothing, run while connected to peripheral 1: it
leaves the session Connected with an empty Device Registry. -/
def runDiscoverEmpty : BleHandler × List Event × Except Error (List BleDevice) :=
  BleHandler.discover envA runConnect1.1 false 1000 pollsNone

/-- A reconnect to the already connected address 1, issued while the
registry is empty and the adapter now advertises peripheral 7. -/
def runReconnect : BleHandler × List BleAddress × List Event × Except Error Unit :=
  BleHandler.connect envA runDiscoverEmpty.1 runConnect1.2.1 1 55 [9] false pollsSeven

/-- C8 counterexample: connected to address 1 with an empty Device Registry,
`connect(1, …)` does fail `AlreadyConnected`, but only after the bootstrap
scan has repopulated the Registry with peripheral 7 — the call perturbs the
Registry, refuting "perturbs no state". -/
theorem c8_cex :
    runDiscoverEmpty.1.connected = some 1
    ∧ runDiscoverEmpty.1.devices = []
    ∧ runReconnect.2.2.2 = .error .AlreadyConnected
    ∧ runReconnect.1.devices = [7] :=
  ⟨rfl, rfl, rfl, rfl⟩

/-- C8 (amended): provided the Device Registry is non-empty at the time of
the call (so the bootstrap scan is skipped), `connect` to the currently
connected address fails `AlreadyConnected` and returns the handler state
and link set completely unchanged, with no external actions. -/
theorem c8_thm (env : Env) (st : BleHandler) (links : List BleAddress)
    (a : BleAddress) (service : Uuid) (cs : List Uuid) (hook : Bool)
    (polls : Nat → PollOutcome)
    (hreg : st.devices ≠ []) (hconn : st.connected = some a) :
    st.connect env links a service cs hook polls
      = (st, links, [], .error .AlreadyConnected) := by
  unfold BleHandler.connect BleHandler.connect_device
  simp [hconn, hreg]

/-- C8 witness: the amended theorem applied to the concrete state connected
to peripheral 1 with registry `[1, 2]`. -/
theorem c8_witness :
    runConnect1.1.connect envA runConnect1.2.1 1 55 [9] false pollsA
      = (runConnect1.1, runConnect1.2.1, [], .error .AlreadyConnected) := by
  exact c8_thm envA runConnect1.1 runConnect1.2.1 1 55 [9] false pollsA
    (by decide) (by decide)

/-! ## Sorting and batch lemmas -/

/-- Inserting into a batch is a permutation of consing. -/
theorem insertDev_perm (d : BleDevice) (l : List BleDevice) :
    (insertDev d l).Perm (d :: l) := by
  induction l with
  | nil => exact List.Perm.refl _
  | cons e rest ih =>
    unfold insertDev
    split
    · exact List.Perm.refl _
    · exact (ih.cons e).trans (List.Perm.swap d e rest)

/-- Sorting a batch is a permutation of it. -/
theorem sortDevices_perm (l : List BleDevice) : (sortDevices l).Perm l := by
  induction l with
  | nil => exact List.Perm.refl _
  | cons d rest ih =>
    exact (insertDev_perm d (sortDevices rest)).trans (ih.cons d)

/-- Insertion preserves sortedness by address. -/
theorem insertDev_sorted (d : BleDevice) (l : List BleDevice)
    (h : l.Pairwise (fun x y => x.address ≤ y.address)) :
    (insertDev d l).Pairwise (fun x y => x.address ≤ y.address) := by
  induction l with
  | nil => simp [insertDev]
  | cons e rest ih =>
    rw [List.pairwise_cons] at h
    unfold insertDev
    split
    · rename_i hde
      refine List.pairwise_cons.mpr ⟨?_, List.pairwise_cons.mpr h⟩
      intro x hx
      rcases List.mem_cons.mp hx with hx | hx
      · exact hx ▸ hde
      · exact le_trans hde (h.1 x hx)
    · rename_i hde
      refine List.pairwise_cons.mpr ⟨?_, ih h.2⟩
      intro x hx
      rcases List.mem_cons.mp ((insertDev_perm d rest).mem_iff.mp hx) with hx | hx
      · exact hx ▸ le_of_not_le hde
      · exact h.1 x hx

/-- The sorted batch is sorted ascending by address. -/
theorem sortDevices_sorted (l : List BleDevice) :
    (sortDevices l).Pairwise (fun x y => x.address ≤ y.address) := by
  induction l with
  | nil => simp [sortDevices]
  | cons d rest ih => exact insertDev_sorted d (sortDevices rest) ih

/-- The batch collected by the `add_devices` loop: the projections of the
projectable discovered peripherals, in order, appended to the accumulator. -/
theorem addDevicesGo_snd (env : Env) (l : List BleAddress) :
    ∀ (reg : List BleAddress) (devs : List BleDevice),
      (addDevicesGo env reg devs l).2
        = devs ++ (l.filter env.projectable).map (fun p => ⟨p, env.devName p⟩) := by
  induction l with
  | nil => intro reg devs; simp [addDevicesGo]
  | cons p rest ih =>
    intro reg devs
    unfold addDevicesGo
    by_cases hp : env.projectable p
    · rw [if_pos hp, ih, List.filter_cons, if_pos hp]
      simp
    · rw [if_neg hp, ih, List.filter_cons, if_neg (by simpa using hp)]

/-- The batch returned by `add_devices` is the sorted projection of the
projectable discovered peripherals. -/
theorem add_devices_batch (env : Env) (st : BleHandler) (discovered : List BleAddress) :
    (st.add_devices env discovered).2
      = sortDevices ((discovered.filter env.projectable).map (fun p => ⟨p, env.devName p⟩)) := by
  show sortDevices (addDevicesGo env st.devices [] discovered).2 = _
  rw [addDevicesGo_snd, List.nil_append]

/-- Any batch produced by `add_devices` from a duplicate-free enumeration is
sorted ascending by address and has pairwise distinct addresses. -/
theorem add_devices_batch_props (env : Env) (st : BleHandler)
    (discovered : List BleAddress) (hnd : discovered.Nodup) :
    (st.add_devices env discovered).2.Pairwise (fun x y => x.address ≤ y.address)
    ∧ ((st.add_devices env discovered).2.map (fun d => d.address)).Nodup := by
  rw [add_devices_batch]
  set m := (discovered.filter env.projectable).map
      (fun p => (⟨p, env.devName p⟩ : BleDevice)) with hm
  refine ⟨sortDevices_sorted m, ?_⟩
  have hperm : ((sortDevices m).map (fun d => d.address)).Perm
      (m.map (fun d => d.address)) := (sortDevices_perm m).map _
  refine hperm.nodup_iff.mpr ?_
  have hpm : ∀ l : List BleAddress,
      (l.map (fun p => (⟨p, env.devName p⟩ : BleDevice))).map (fun d => d.address) = l := by
    intro l
    induction l with
    | nil => rfl
    | cons a t ih2 => simp only [List.map_cons, ih2]
  rw [hm, hpm]
  exact hnd.filter _

/-- Number of 200 ms poll sleeps in a trace. -/
def countSleep : List Event → Nat
  | [] => 0
  | Event.sleep :: tr => countSleep tr + 1
  | _ :: tr => countSleep tr

theorem countSleep_sentBatch (b : List BleDevice) (tr : List Event) :
    countSleep (Event.sentBatch b :: tr) = countSleep tr := rfl

theorem countSleep_sleep (tr : List Event) :
    countSleep (Event.sleep :: tr) = countSleep tr + 1 := rfl

/-! ## Loop lemmas for `discover` -/

/-- When every poll enumerates successfully and every sink send succeeds,
the polling loop performs exactly `n` sleeps, ends by stopping the scan,
and returns a final batch. -/
theorem discoverLoop_good (env : Env) (polls : Nat → PollOutcome) (tx : Bool)
    (hg : ∀ i, ∃ addrs, polls i = .enumOk addrs true) :
    ∀ (n i : Nat) (st : BleHandler) (devices : List BleDevice),
      countSleep (discoverLoop env polls tx n i st devices).2.1 = n
      ∧ (∃ tr, (discoverLoop env polls tx n i st devices).2.1 = tr ++ [Event.stopScan])
      ∧ (∃ l, (discoverLoop env polls tx n i st devices).2.2 = .ok l) := by
  intro n
  induction n with
  | zero =>
    intro i st devices
    exact ⟨rfl, ⟨[], rfl⟩, ⟨devices, rfl⟩⟩
  | succ n ih =>
    intro i st devices
    obtain ⟨addrs, hp⟩ := hg i
    unfold discoverLoop
    split
    · rename_i heq
      rw [hp] at heq
      cases heq
    · rename_i a2 s2 heq
      rw [hp] at heq
      injection heq with h1 h2
      subst h1
      subst h2
      dsimp only
      obtain ⟨hcount, ⟨tr, htr⟩, ⟨l, hl⟩⟩ :=
        ih (i + 1) (st.add_devices env addrs).1 (st.add_devices env addrs).2
      split
      · rw [if_pos rfl]
        dsimp only
        refine ⟨?_, ⟨Event.sleep :: Event.sentBatch (st.add_devices env addrs).2 :: tr, ?_⟩,
          ⟨l, hl⟩⟩
        · rw [countSleep_sleep, countSleep_sentBatch, hcount]
        · rw [htr]
          rfl
      · dsimp only
        refine ⟨?_, ⟨Event.sleep :: tr, ?_⟩, ⟨l, hl⟩⟩
        · rw [countSleep_sleep, hcount]
        · rw [htr]
          rfl

/-- The polling loop reaches `stop_scan` exactly when it returns
successfully, and any error it returns is an enumeration failure
(`Adapter`) or a sink failure (`SendingDevices`). -/
theorem discoverLoop_stop (env : Env) (polls : Nat → PollOutcome) (tx : Bool) :
    ∀ (n i : Nat) (st : BleHandler) (devices : List BleDevice),
      ((∃ l, (discoverLoop env polls tx n i st devices).2.2 = .ok l)
        ↔ Event.stopScan ∈ (discoverLoop env polls tx n i st devices).2.1)
      ∧ (∀ e, (discoverLoop env polls tx n i st devices).2.2 = .error e →
          e = .Adapter ∨ e = .SendingDevices) := by
  intro n
  induction n with
  | zero =>
    intro i st devices
    refine ⟨⟨fun _ => List.mem_singleton.mpr rfl, fun _ => ⟨devices, rfl⟩⟩, fun e he => ?_⟩
    unfold discoverLoop at he
    cases he
  | succ n ih =>
    intro i st devices
    unfold discoverLoop
    split
    · refine ⟨⟨fun ⟨l, hl⟩ => by simp at hl, fun hmem => ?_⟩, fun e he => ?_⟩
      · simp at hmem
      · left
        injection he with h
        exact h.symm
    · rename_i addrs s2 heq
      dsimp only
      split
      · cases s2 with
        | true =>
          rw [if_pos rfl]
          dsimp only
          obtain ⟨hiff, herr⟩ :=
            ih (i + 1) (st.add_devices env addrs).1 (st.add_devices env addrs).2
          refine ⟨⟨fun hl => ?_, fun hmem => ?_⟩, herr⟩
          · exact List.mem_cons_of_mem _ (List.mem_cons_of_mem _ (hiff.mp hl))
          · refine hiff.mpr ?_
            rcases List.mem_cons.mp hmem with h | h
            · exact absurd h (by simp)
            · rcases List.mem_cons.mp h with h | h
              · exact absurd h (by simp)
              · exact h
        | false =>
          rw [if_neg (by simp)]
          dsimp only
          refine ⟨⟨fun ⟨l, hl⟩ => by simp at hl, fun hmem => by simp at hmem⟩,
            fun e he => ?_⟩
          right
          injection he with h
          exact h.symm
      · dsimp only
        obtain ⟨hiff, herr⟩ :=
          ih (i + 1) (st.add_devices env addrs).1 (st.add_devices env addrs).2
        refine ⟨⟨fun hl => ?_, fun hmem => ?_⟩, herr⟩
        · exact List.mem_cons_of_mem _ (hiff.mp hl)
        · refine hiff.mpr ?_
          rcases List.mem_cons.mp hmem with h | h
          · exact absurd h (by simp)
          · exact h

/-- Every batch the polling loop sends to the sink is non-empty, sorted
ascending by address, and free of duplicate addresses, provided the adapter
never enumerates the same peripheral twice within one poll. -/
theorem discoverLoop_batches (env : Env) (polls : Nat → PollOutcome) (tx : Bool)
    (hn : ∀ i addrs s, polls i = .enumOk addrs s → addrs.Nodup) :
    ∀ (n i : Nat) (st : BleHandler) (devices : List BleDevice) (b : List BleDevice),
      Event.sentBatch b ∈ (discoverLoop env polls tx n i st devices).2.1 →
      b ≠ [] ∧ b.Pairwise (fun x y => x.address ≤ y.address)
        ∧ (b.map (fun d => d.address)).Nodup := by
  intro n
  induction n with
  | zero =>
    intro i st devices b hmem
    unfold discoverLoop at hmem
    simp at hmem
  | succ n ih =>
    intro i st devices b hmem
    unfold discoverLoop at hmem
    split at hmem
    · simp at hmem
    · rename_i addrs s2 heq
      dsimp only at hmem
      split at hmem
      · rename_i hbatch
        cases s2 with
        | true =>
          rw [if_pos rfl] at hmem
          dsimp only at hmem
          rcases List.mem_cons.mp hmem with h | h
          · exact absurd h (by simp)
          · rcases List.mem_cons.mp h with h | h
            · injection h with hb
              subst hb
              obtain ⟨hsort, hnd⟩ :=
                add_devices_batch_props env st addrs (hn i addrs true heq)
              exact ⟨hbatch.1, hsort, hnd⟩
            · exact ih (i + 1) _ _ b h
        | false =>
          rw [if_neg (by simp)] at hmem
          dsimp only at hmem
          simp at hmem
      · dsimp only at hmem
        rcases List.mem_cons.mp hmem with h | h
        · exact absurd h (by simp)
        · exact ih (i + 1) _ _ b h

/-! ## C4 -/

/-- C4: with a fault-free adapter (every poll enumerates successfully and
sink sends succeed), `discover(sink, t)` starts the scan, clears the
Registry immediately after starting it, performs exactly
round(t / 200) = (t + 100) / 200 polls of 200 ms each (the exact-arithmetic
value of the code's `(t as f64 / 200.0).round()`), then stops the scan and
succeeds; for t = 0 it performs zero polls and returns the empty list while
still starting and stopping the scan. -/
theorem c4_thm (env : Env) (st : BleHandler) (tx : Bool) (t : Nat)
    (polls : Nat → PollOutcome)
    (hg : ∀ i, ∃ addrs, polls i = .enumOk addrs true) :
    countSleep (st.discover env tx t polls).2.1 = (t + 100) / 200
    ∧ (st.discover env tx t polls).2.1.take 2 = [Event.startScan, Event.clearRegistry]
    ∧ (st.discover env tx t polls).2.1.getLast? = some Event.stopScan
    ∧ (∃ l, (st.discover env tx t polls).2.2 = .ok l)
    ∧ (t = 0 →
        (st.discover env tx t polls).2.1
            = [Event.startScan, Event.clearRegistry, Event.stopScan]
        ∧ (st.discover env tx t polls).2.2 = .ok []) := by
  obtain ⟨hcount, ⟨tr, htr⟩, ⟨l, hl⟩⟩ :=
    discoverLoop_good env polls tx hg (discoverLoops t) 0 { st with devices := [] } []
  refine ⟨hcount, rfl, ?_, ⟨l, hl⟩, ?_⟩
  · show (Event.startScan :: Event.clearRegistry ::
      (discoverLoop env polls tx (discoverLoops t) 0 { st with devices := [] } []).2.1).getLast?
        = some Event.stopScan
    rw [htr]
    show ((Event.startScan :: Event.clearRegistry :: tr) ++ [Event.stopScan]).getLast?
      = some Event.stopScan
    exact List.getLast?_concat _
  · intro ht
    subst ht
    exact ⟨rfl, rfl⟩

/-- C4 witness: a 500 ms silent scan with a sink performs exactly 3 polls
and succeeds, and a 0 ms scan produces exactly the start/clear/stop trace. -/
theorem c4_witness :
    countSleep (BleHandler.new.discover envA true 500 pollsNone).2.1 = 3
    ∧ (∃ l, (BleHandler.new.discover envA true 500 pollsNone).2.2 = .ok l)
    ∧ (BleHandler.new.discover envA true 0 pollsNone).2.1
        = [Event.startScan, Event.clearRegistry, Event.stopScan] := by
  have h1 := c4_thm envA BleHandler.new true 500 pollsNone (fun i => ⟨[], rfl⟩)
  have h2 := c4_thm envA BleHandler.new true 0 pollsNone (fun i => ⟨[], rfl⟩)
  exact ⟨h1.1, h1.2.2.2.1, (h2.2.2.2.2 rfl).1⟩

/-! ## C5 -/

/-- C5: every batch that `discover` pushes to the sink is non-empty, sorted
ascending by address, and contains no two devices with the same address
(given that a single adapter enumeration never lists one peripheral twice);
polls with an empty batch send nothing — only `sentBatch` events carry
batches, and all of them satisfy the property. -/
theorem c5_thm (env : Env) (st : BleHandler) (tx : Bool) (t : Nat)
    (polls : Nat → PollOutcome)
    (hn : ∀ i addrs s, polls i = .enumOk addrs s → addrs.Nodup)
    (b : List BleDevice)
    (hmem : Event.sentBatch b ∈ (st.discover env tx t polls).2.1) :
    b ≠ [] ∧ b.Pairwise (fun x y => x.address ≤ y.address)
      ∧ (b.map (fun d => d.address)).Nodup := by
  have hmem2 : Event.sentBatch b ∈ Event.startScan :: Event.clearRegistry ::
      (discoverLoop env polls tx (discoverLoops t) 0 { st with devices := [] } []).2.1 := hmem
  rcases List.mem_cons.mp hmem2 with h | h
  · exact absurd h (by simp)
  · rcases List.mem_cons.mp h with h | h
    · exact absurd h (by simp)
    · exact discoverLoop_batches env polls tx hn (discoverLoops t) 0 _ _ b h

/-- C5 witness: the single batch sent during a 200 ms scan that sees
peripherals 1 and 2 is non-empty, sorted, and duplicate-free. -/
theorem c5_witness :
    ([⟨1, ""⟩, ⟨2, ""⟩] : List BleDevice) ≠ []
    ∧ ([⟨1, ""⟩, ⟨2, ""⟩] : List BleDevice).Pairwise (fun x y => x.address ≤ y.address)
    ∧ (([⟨1, ""⟩, ⟨2, ""⟩] : List BleDevice).map (fun d => d.address)).Nodup := by
  have hn : ∀ i addrs s, pollsA i = PollOutcome.enumOk addrs s → addrs.Nodup := by
    intro i addrs s hp
    have hp2 : PollOutcome.enumOk [1, 2] true = PollOutcome.enumOk addrs s := hp
    injection hp2 with h1 h2
    rw [← h1]
    decide
  exact c5_thm envA BleHandler.new true 200 pollsA hn _ (by decide)

/-! ## C10 -/

/-- C10: `discover` reaches `stop_scan` exactly when it returns
successfully — an enumeration failure or sink-send failure during the
polling loop makes it return the corresponding error (`Adapter` or
`SendingDevices`) with the scan already started but never stopped. -/
theorem c10_thm (env : Env) (st : BleHandler) (tx : Bool) (t : Nat)
    (polls : Nat → PollOutcome) :
    ((∃ l, (st.discover env tx t polls).2.2 = .ok l)
      ↔ Event.stopScan ∈ (st.discover env tx t polls).2.1)
    ∧ (∀ e, (st.discover env tx t polls).2.2 = .error e →
        e = .Adapter ∨ e = .SendingDevices)
    ∧ Event.startScan ∈ (st.discover env tx t polls).2.1 := by
  obtain ⟨hiff, herr⟩ :=
    discoverLoop_stop env polls tx (discoverLoops t) 0 { st with devices := [] } []
  refine ⟨⟨fun hl => ?_, fun hm => ?_⟩, herr, ?_⟩
  · show Event.stopScan ∈ Event.startScan :: Event.clearRegistry ::
      (discoverLoop env polls tx (discoverLoops t) 0 { st with devices := [] } []).2.1
    exact List.mem_cons_of_mem _ (List.mem_cons_of_mem _ (hiff.mp hl))
  · have hm2 : Event.stopScan ∈ Event.startScan :: Event.clearRegistry ::
        (discoverLoop env polls tx (discoverLoops t) 0 { st with devices := [] } []).2.1 := hm
    rcases List.mem_cons.mp hm2 with h | h
    · exact absurd h (by simp)
    · rcases List.mem_cons.mp h with h | h
      · exact absurd h (by simp)
      · exact hiff.mpr h
  · show Event.startScan ∈ Event.startScan :: Event.clearRegistry ::
      (discoverLoop env polls tx (discoverLoops t) 0 { st with devices := [] } []).2.1
    exact List.mem_cons_self _ _

/-- Adapter polls whose enumeration always fails. -/
def pollsFail : Nat → PollOutcome := fun _ => .enumErr

/-- C10 witness: with an adapter whose enumeration fails, a 400 ms
discovery returns the `Adapter` error, the scan was started, and
`stop_scan` is never reached. -/
theorem c10_witness :
    Event.stopScan ∉ (BleHandler.new.discover envA true 400 pollsFail).2.1
    ∧ Event.startScan ∈ (BleHandler.new.discover envA true 400 pollsFail).2.1
    ∧ (BleHandler.new.discover envA true 400 pollsFail).2.2 = .error .Adapter := by
  have h := c10_thm envA BleHandler.new true 400 pollsFail
  refine ⟨fun hm => ?_, h.2.2, rfl⟩
  obtain ⟨l, hl⟩ := h.1.mpr hm
  have hl2 : Except.error Error.Adapter = Except.ok l := hl
  cases hl2

/-! ## C1 -/

/-- An environment with reachable links but no GATT services at all. -/
def envNoSvc : Env := { envA with gatt := fun _ => [] }

/-- A fresh handler attempting to connect to peripheral 1 when no peripheral
offers the requested service. -/
def runConnectNoSvc : BleHandler × List BleAddress × List Event × Except Error Unit :=
  BleHandler.connect envNoSvc BleHandler.new [] 1 55 [9] false pollsA

/-- C1 counterexample: a `connect` that fails at service discovery
(`ServiceNotFound`, step 5) leaves the peripheral stored in the session's
connected slot and transport-connected — the session is not Idle and the
peripheral is not disconnected, refuting the claim. -/
theorem c1_cex :
    runConnectNoSvc.2.2.2 = .error .ServiceNotFound
    ∧ runConnectNoSvc.1.connected = some 1
    ∧ 1 ∈ runConnectNoSvc.2.1 :=
  ⟨rfl, rfl, by decide⟩

/-- C1 (amended): with a non-empty Registry at entry, a `connect` failure
after peripheral resolution leaves the Device Registry (and the
characteristic and listener lists) unchanged; a link-opening failure
(step 3) leaves the whole session state, including the link set, unchanged;
but a service-discovery failure (step 5) leaves the peripheral stored in
the connected slot and transport-connected rather than Idle and
disconnected. -/
theorem c1_thm (env : Env) (st : BleHandler) (links : List BleAddress)
    (address : BleAddress) (service : Uuid) (cs : List Uuid) (hook : Bool)
    (polls : Nat → PollOutcome)
    (hreg : st.devices ≠ [])
    (hne : ∀ d, st.connected = some d → address ≠ d)
    (hdev : address ∈ st.devices) :
    (address ∉ links → env.linkOk address = false →
      st.connect env links address service cs hook polls
        = (st, links, [], .error .Adapter))
    ∧ ((env.gatt address).find? (fun s => s.uuid = service) = none →
        (address ∈ links ∨ env.linkOk address = true) →
        (st.connect env links address service cs hook polls).2.2.2
            = .error .ServiceNotFound
        ∧ (st.connect env links address service cs hook polls).1.connected
            = some address
        ∧ address ∈ (st.connect env links address service cs hook polls).2.1
        ∧ (st.connect env links address service cs hook polls).1.devices = st.devices
        ∧ (st.connect env links address service cs hook polls).1.characs = st.characs
        ∧ (st.connect env links address service cs hook polls).1.notifyListeners
            = st.notifyListeners) := by
  have hmatch : (match st.connected with
      | some d => address == d | none => false) = false := by
    cases hc : st.connected
    · rfl
    · simpa using hne _ hc
  constructor
  · intro hml hlk
    unfold BleHandler.connect BleHandler.connect_device
    simp [hreg, hmatch, hdev, hml, hlk]
  · intro hsvc hlink
    by_cases hml : address ∈ links
    · unfold BleHandler.connect BleHandler.connect_device BleHandler.connect_service
        BleHandler.get_device
      simp [hreg, hmatch, hdev, hml, hsvc]
    · have hlk : env.linkOk address = true := hlink.resolve_left hml
      unfold BleHandler.connect BleHandler.connect_device BleHandler.connect_service
        BleHandler.get_device
      simp [hreg, hmatch, hdev, hml, hlk, hsvc]

/-- C1 witness: both amended branches at concrete inputs — a refused link
open (step 3) returns the state unchanged, and a missing service (step 5)
leaves peripheral 2 stored and linked with the registry intact. -/
theorem c1_witness :
    (stHealthy.connect { envNoSvc with linkOk := fun _ => false } [1] 2 55 [9] false pollsA
        = (stHealthy, [1], [], .error .Adapter))
    ∧ ((stHealthy.connect envNoSvc [1, 2] 2 55 [9] false pollsA).2.2.2
          = .error .ServiceNotFound
        ∧ (stHealthy.connect envNoSvc [1, 2] 2 55 [9] false pollsA).1.connected = some 2
        ∧ 2 ∈ (stHealthy.connect envNoSvc [1, 2] 2 55 [9] false pollsA).2.1
        ∧ (stHealthy.connect envNoSvc [1, 2] 2 55 [9] false pollsA).1.devices
            = stHealthy.devices) := by
  have h1 := c1_thm { envNoSvc with linkOk := fun _ => false } stHealthy [1] 2 55 [9]
    false pollsA (by decide) (fun d hd => by rw [show stHealthy.connected = some 1 from rfl] at hd; injection hd with h; rw [← h]; decide) (by decide)
  have h2 := c1_thm envNoSvc stHealthy [1, 2] 2 55 [9] false pollsA (by decide)
    (fun d hd => by rw [show stHealthy.connected = some 1 from rfl] at hd; injection hd with h; rw [← h]; decide) (by decide)
  obtain ⟨ha, hb, hc, hd, -⟩ := h2.2 rfl (Or.inl (by decide))
  exact ⟨h1.1 (by decide) rfl, ha, hb, hc, hd⟩

/-! ## C2 -/

/-- The session of `runConnect1` connecting to the second peripheral while
still connected to the first. -/
def runConnect2 : BleHandler × List BleAddress × List Event × Except Error Unit :=
  BleHandler.connect envA runConnect1.1 runConnect1.2.1 2 55 [9] false pollsA

/-- C2 counterexample: with the session connected to address 1, a successful
`connect` to address 2 leaves **both** addresses transport-connected (the
code never disconnects the old peripheral), refuting the single-connection
claim. -/
theorem c2_cex :
    runConnect1.1.connected = some 1
    ∧ runConnect2.2.2.2 = .ok ()
    ∧ runConnect2.1.connected = some 2
    ∧ 1 ∈ runConnect2.2.1
    ∧ 2 ∈ runConnect2.2.1 :=
  ⟨rfl, rfl, rfl, by decide, by decide⟩

/-- C2 (amended): the session's connected slot holds at most one peripheral
(after a successful `connect` to B it holds exactly B), but a successful
`connect` to address B while the session is connected to a different,
still-linked address A leaves both A and B transport-connected: the old
link is never torn down. -/
theorem c2_thm (env : Env) (st : BleHandler) (links : List BleAddress)
    (A B : BleAddress) (service : Uuid) (cs : List Uuid) (hook : Bool)
    (polls : Nat → PollOutcome) (s : Service)
    (hc : st.connected = some A) (hmA : A ∈ links) (hAB : B ≠ A)
    (hreg : st.devices ≠ []) (hdev : B ∈ st.devices)
    (hlink : B ∈ links ∨ env.linkOk B = true)
    (hsvc : (env.gatt B).find? (fun x => x.uuid = service) = some s) :
    (st.connect env links B service cs hook polls).2.2.2 = .ok ()
    ∧ (st.connect env links B service cs hook polls).1.connected = some B
    ∧ A ∈ (st.connect env links B service cs hook polls).2.1
    ∧ B ∈ (st.connect env links B service cs hook polls).2.1 := by
  have hmatch : (match st.connected with
      | some d => B == d | none => false) = false := by
    rw [hc]
    simpa using hAB
  by_cases hml : B ∈ links
  · unfold BleHandler.connect BleHandler.connect_device BleHandler.connect_service
      BleHandler.get_device
    cases hook <;> simp [hreg, hmatch, hdev, hml, hsvc, hmA]
  · have hlk : env.linkOk B = true := hlink.resolve_left hml
    unfold BleHandler.connect BleHandler.connect_device BleHandler.connect_service
      BleHandler.get_device
    cases hook <;> simp [hreg, hmatch, hdev, hml, hlk, hsvc, hmA]

/-- C2 witness: the amended theorem at the concrete post-`runConnect1`
session: connecting to peripheral 2 succeeds, stores 2, and leaves both
1 and 2 linked. -/
theorem c2_witness :
    (runConnect1.1.connect envA runConnect1.2.1 2 55 [9] false pollsA).2.2.2 = .ok ()
    ∧ (runConnect1.1.connect envA runConnect1.2.1 2 55 [9] false pollsA).1.connected
        = some 2
    ∧ 1 ∈ (runConnect1.1.connect envA runConnect1.2.1 2 55 [9] false pollsA).2.1
    ∧ 2 ∈ (runConnect1.1.connect envA runConnect1.2.1 2 55 [9] false pollsA).2.1 := by
  exact c2_thm envA runConnect1.1 runConnect1.2.1 1 2 55 [9] false pollsA
    ⟨55, [⟨9⟩, ⟨10⟩]⟩ rfl (by decide) (by decide) (by decide) (by decide)
    (Or.inr rfl) (by decide)

end Blec
